import Mathlib

/-!
Verification of the two-lane rendezvous stream of
src/thor/kernel/src/generic/stream.cpp (namespace thor), together with the
error taxonomy of src/thor/kernel/src/generic/error.hpp.

The embedding translates the kernel stream core into pure Lean functions.
Lane indices are Fin 2 (the source asserts !(p & ~1), i.e. p is 0 or 1).
C++ pointer identity of freshly allocated conversation streams is modelled
by a numeric allocation counter carried in the stream state.  Completion
sinks are modelled by a list of Completion values produced by a submit
call, carrying exactly the arguments the source passes to complete(...).
Assertion failures and __builtin_trap are modelled by a trap outcome.
-/

namespace Thor

/-- Embeds enum Error of src/thor/kernel/src/generic/error.hpp lines 6-12. -/
inductive Error where
  | kErrSuccess
  | kErrBufferTooSmall
  | kErrThreadExited
  | kErrClosedLocally
  | kErrClosedRemotely
deriving DecidableEq, Repr

/-- A LaneHandle names one lane of a stream: a (stream, lane-index) pair.
The stream field is the numeric identity of the stream object
(pointer identity in the C++ source). -/
structure LaneHandle where
  stream : Nat
  lane : Fin 2
deriving DecidableEq, Repr

/-- A LaneDescriptor is either default-constructed (empty, LaneDescriptor())
or wraps a LaneHandle. -/
abbrev LaneDescriptor := Option LaneHandle

/-- AnyDescriptor: the sum of descriptor flavors the surrounding OS exposes.
The stream core only carries and attaches these, so the flavors are
represented by tagged numeric identities, plus the lane-descriptor flavor
that Offer/Accept attaches. -/
inductive AnyDescriptor where
  | memory (id : Nat)
  | thread (id : Nat)
  | laneDescriptor (h : LaneDescriptor)
  | other (tag : Nat) (id : Nat)
deriving DecidableEq, Repr

/-- The item variants handled by the stream core (OfferBase, AcceptBase,
SendFromBufferBase, RecvToBufferBase, PushDescriptorBase,
PullDescriptorBase).  Each carries its SubmitInfo (a numeric token echoed
into the completion) and the payload fields the transfer functions of
stream.cpp read: the accept and pull items carry the numeric identity of
the universe their completion attaches into, the send item carries its
byte buffer, the recv item the capacity of its accessor, the push item
the descriptor being pushed. -/
inductive StreamControl where
  | offer (info : Nat)
  | accept (info : Nat) (univ : Nat)
  | sendFromBuffer (info : Nat) (buffer : List Nat)
  | recvToBuffer (info : Nat) (capacity : Nat)
  | pushDescriptor (info : Nat) (descriptor : AnyDescriptor)
  | pullDescriptor (info : Nat) (univ : Nat)
deriving DecidableEq, Repr

/-- OfferBase::classOf. -/
def StreamControl.isOffer : StreamControl → Bool
  | .offer _ => true
  | _ => false

/-- AcceptBase::classOf. -/
def StreamControl.isAccept : StreamControl → Bool
  | .accept _ _ => true
  | _ => false

/-- SendFromBufferBase::classOf. -/
def StreamControl.isSend : StreamControl → Bool
  | .sendFromBuffer _ _ => true
  | _ => false

/-- RecvToBufferBase::classOf. -/
def StreamControl.isRecv : StreamControl → Bool
  | .recvToBuffer _ _ => true
  | _ => false

/-- PushDescriptorBase::classOf. -/
def StreamControl.isPush : StreamControl → Bool
  | .pushDescriptor _ _ => true
  | _ => false

/-- PullDescriptorBase::classOf. -/
def StreamControl.isPull : StreamControl → Bool
  | .pullDescriptor _ _ => true
  | _ => false

/-- One call to an item's complete(...) method, carrying exactly the
arguments the source passes at each call site of stream.cpp.  For the
recv completion, length is the byte count passed to complete
(from.buffer.size()) and written is the contents of the receiver's
accessor after the copyTo call, so that the delivered bytes are
observable. -/
inductive Completion where
  | offer (info : Nat) (error : Error)
  | accept (info : Nat) (error : Error) (univ : Nat) (lane : LaneDescriptor)
  | send (info : Nat) (error : Error)
  | recv (info : Nat) (error : Error) (length : Nat) (written : List Nat)
  | push (info : Nat) (error : Error)
  | pull (info : Nat) (error : Error) (univ : Nat) (descriptor : AnyDescriptor)
deriving DecidableEq, Repr

/-- The Error tag of a completion. -/
def Completion.error : Completion → Error
  | .offer _ e => e
  | .accept _ e _ _ => e
  | .send _ e => e
  | .recv _ e _ _ => e
  | .push _ e => e
  | .pull _ e _ _ => e

/-- The fresh conversation stream constructed by Stream::submit on an
Offer/Accept park (stream.cpp lines 138-143): its numeric identity, its
reference count as set by setRelaxed, and its two peer counts. -/
structure StreamObj where
  id : Nat
  refcount : Nat
  peerCount0 : Nat
  peerCount1 : Nat
deriving DecidableEq, Repr

/-- The mutable state of one Stream object: the two per-lane process
queues, the conversation FIFO (holding the fresh child streams parked by
Offer/Accept), the two laneBroken flags, and the two peer counts.
nextId is the allocator for fresh stream identities (pointer identity of
makeShared in the source). -/
structure Stream where
  queue0 : List StreamControl
  queue1 : List StreamControl
  conversationQueue : List StreamObj
  broken0 : Bool
  broken1 : Bool
  peers0 : Nat
  peers1 : Nat
  nextId : Nat
deriving DecidableEq, Repr

/-- The process queue of lane p. -/
def Stream.queueOf (st : Stream) (p : Fin 2) : List StreamControl :=
  if p = 0 then st.queue0 else st.queue1

/-- Replace the process queue of lane p. -/
def Stream.setQueue (st : Stream) (p : Fin 2) (l : List StreamControl) : Stream :=
  if p = 0 then { st with queue0 := l } else { st with queue1 := l }

/-- The laneBroken flag of lane p. -/
def Stream.brokenOf (st : Stream) (p : Fin 2) : Bool :=
  if p = 0 then st.broken0 else st.broken1

/-- Set the laneBroken flag of lane p. -/
def Stream.setBroken (st : Stream) (p : Fin 2) (b : Bool) : Stream :=
  if p = 0 then { st with broken0 := b } else { st with broken1 := b }

/-- The peer count of lane p. -/
def Stream.peersOf (st : Stream) (p : Fin 2) : Nat :=
  if p = 0 then st.peers0 else st.peers1

/-- Replace the peer count of lane p. -/
def Stream.setPeers (st : Stream) (p : Fin 2) (n : Nat) : Stream :=
  if p = 0 then { st with peers0 := n } else { st with peers1 := n }

/-- Replace the conversation FIFO. -/
def Stream.setConversations (st : Stream) (l : List StreamObj) : Stream :=
  { st with conversationQueue := l }

/-- Embeds Stream::Stream() (stream.cpp lines 100-104): empty queues,
laneBroken both false, both peer counts 1. -/
def Stream.new : Stream :=
  { queue0 := [], queue1 := [], conversationQueue := []
    broken0 := false, broken1 := false, peers0 := 1, peers1 := 1, nextId := 0 }

/-- Modelled from the spec: AnyBufferAccessor::copyTo is not under src/
(it lives in kernel.hpp); section 4.3 of the specification describes the
transfer as copying the send buffer into the recv accessor.  copyTo data
size yields the bytes written into the receiver's buffer: the first size
bytes of data. -/
def copyTo (data : List Nat) (size : Nat) : List Nat :=
  data.take size

/-- Embeds transfer(OfferBase, AcceptBase) (stream.cpp lines 58-63):
complete the offer with kErrSuccess and no payload, complete the accept
with kErrSuccess, its own universe and the given lane descriptor. -/
def transferOfferAccept (offerInfo acceptInfo acceptUniv : Nat)
    (lane : LaneDescriptor) : List Completion :=
  [ .offer offerInfo .kErrSuccess,
    .accept acceptInfo .kErrSuccess acceptUniv lane ]

/-- Embeds transfer(SendFromBufferBase, RecvToBufferBase) (stream.cpp
lines 65-71).  The source asserts from.buffer.size() <= accessor.length();
the violating case is modelled as none (assertion failure).  Otherwise
copyTo writes the buffer into the accessor, the sender completes with
kErrSuccess and no payload, the receiver with kErrSuccess and the byte
count from.buffer.size(). -/
def transferSendRecv (sendInfo : Nat) (buffer : List Nat)
    (recvInfo capacity : Nat) : Option (List Completion) :=
  if buffer.length ≤ capacity then
    some [ .send sendInfo .kErrSuccess,
           .recv recvInfo .kErrSuccess buffer.length (copyTo buffer buffer.length) ]
  else
    none

/-- Embeds transfer(PushDescriptorBase, PullDescriptorBase) (stream.cpp
lines 73-77): complete the push with kErrSuccess, complete the pull with
kErrSuccess, its own universe and the pushed descriptor. -/
def transferPushPull (pushInfo pullInfo pullUniv : Nat)
    (d : AnyDescriptor) : List Completion :=
  [ .push pushInfo .kErrSuccess,
    .pull pullInfo .kErrSuccess pullUniv d ]

/-- Outcome of one Stream::submit call: either a normal return carrying
the new stream state, the completions fired on this call and the returned
LaneDescriptor, or a trap (failed assert / __builtin_trap). -/
inductive SubmitOutcome where
  | ok (st : Stream) (events : List Completion) (result : LaneDescriptor)
  | trap (msg : String)
deriving DecidableEq, Repr

/-- Embeds the post-lock dispatch of Stream::submit (stream.cpp lines
159-199): the chain of classOf tests on the local item u and the popped
remote item v.  Note that the source dispatches Offer/Accept and
Send/Recv in both orientations but Push/Pull only with u the push and v
the pull (lines 189-193); the combination u pull, v push falls through to
the final else, which logs the tags and traps (lines 194-199).
conversation is the child stream popped from the conversation FIFO when v
was an Offer or Accept; the source would dereference a null shared
pointer were an Offer/Accept branch reached without it, modelled as a
trap. -/
def dispatch (st : Stream) (p q : Fin 2) (u v : StreamControl)
    (conversation : Option StreamObj) : SubmitOutcome :=
  match u, v with
  | .offer infoU, .accept infoV univV =>
    match conversation with
    | some c =>
      SubmitOutcome.ok st
        (transferOfferAccept infoU infoV univV (some ⟨c.id, q⟩))
        (some ⟨c.id, p⟩)
    | none => .trap "null conversation"
  | .accept infoU univU, .offer infoV =>
    match conversation with
    | some c =>
      SubmitOutcome.ok st
        (transferOfferAccept infoV infoU univU (some ⟨c.id, p⟩))
        (some ⟨c.id, p⟩)
    | none => .trap "null conversation"
  | .sendFromBuffer infoU buf, .recvToBuffer infoV cap =>
    match transferSendRecv infoU buf infoV cap with
    | some evs => .ok st evs none
    | none => .trap "send size exceeds recv capacity"
  | .recvToBuffer infoU cap, .sendFromBuffer infoV buf =>
    match transferSendRecv infoV buf infoU cap with
    | some evs => .ok st evs none
    | none => .trap "send size exceeds recv capacity"
  | .pushDescriptor infoU d, .pullDescriptor infoV univV =>
    .ok st (transferPushPull infoU infoV univV d) none
  | _, _ => .trap "Operations do not match"

/-- Embeds Stream::submit (stream.cpp lines 110-200).  p is the local
lane, q = 1 - p the remote lane.  Under the lock: assert the local lane
is not broken; if queue[q] is non-empty pop its front as v (and, when v
is an Offer or Accept, pop the front of the conversation FIFO); otherwise
if queue[q] is empty and lane q is broken the source asserts
("Handle remotely broken lanes"); otherwise an Offer/Accept u is parked
together with a fresh conversation (refcount 3, both peer counts 2) and
a LaneDescriptor for the submitter's lane of that conversation is
returned, while any other u is parked and an empty LaneDescriptor is
returned.  After the lock, a popped v is dispatched against u. -/
def Stream.submit (st : Stream) (p : Fin 2) (u : StreamControl) : SubmitOutcome :=
  let q : Fin 2 := 1 - p
  if st.brokenOf p then .trap "submit on locally broken lane"
  else
    match st.queueOf q with
    | v :: rest =>
      let st1 := st.setQueue q rest
      if v.isOffer || v.isAccept then
        match st1.conversationQueue with
        | [] => .trap "conversation queue empty"
        | c :: cs => dispatch (st1.setConversations cs) p q u v (some c)
      else
        dispatch st1 p q u v none
    | [] =>
      if st.brokenOf q then .trap "Handle remotely broken lanes"
      else if u.isOffer || u.isAccept then
        let c : StreamObj := ⟨st.nextId, 3, 2, 2⟩
        SubmitOutcome.ok
          { (st.setQueue p (st.queueOf p ++ [u])) with
            conversationQueue := st.conversationQueue ++ [c],
            nextId := st.nextId + 1 }
          []
          (some ⟨c.id, p⟩)
      else
        .ok (st.setQueue p (st.queueOf p ++ [u])) [] none

/-- Outcome of Stream::incrementPeers or Stream::decrementPeers: a normal
return with the new state, the completions fired (the source fires none),
and for decrement whether this was the last handle of the lane, or a trap
(failed assert). -/
inductive PeerOutcome where
  | ok (st : Stream) (events : List Completion) (wasLast : Bool)
  | trap (msg : String)
deriving DecidableEq, Repr

/-- Embeds Stream::incrementPeers (stream.cpp lines 79-82): fetch_add on
the peer count, asserting the previous count was non-zero. -/
def Stream.incrementPeers (st : Stream) (lane : Fin 2) : PeerOutcome :=
  let count := st.peersOf lane
  if count = 0 then .trap "incrementPeers on dead lane"
  else .ok (st.setPeers lane (count + 1)) [] false

/-- Embeds Stream::decrementPeers (stream.cpp lines 84-98): fetch_sub on
the peer count; if the previous count was greater than 1 return false;
otherwise log, assert the lane is not already broken, set laneBroken and
return true (the caller, ~LaneHandle, then releases the stream
reference).  The source fires no completions and does not touch either
process queue.  Peer-count underflow (a double drop, a caller bug) is not
modelled beyond the truncated subtraction. -/
def Stream.decrementPeers (st : Stream) (lane : Fin 2) : PeerOutcome :=
  let count := st.peersOf lane
  let st1 := st.setPeers lane (count - 1)
  if count > 1 then .ok st1 [] false
  else if st1.brokenOf lane then .trap "lane already broken"
  else .ok (st1.setBroken lane true) [] true

/-- Modelled from the spec: the Universe descriptor table is not under
src/ (only its use in the makeEvent policies is); section 4.6 of the
specification describes attachDescriptor as allocating a fresh numeric
handle monotonically and installing the mapping under the universe lock.
The table is an association list from handle to descriptor. -/
structure Universe where
  nextHandle : Nat
  table : List (Nat × AnyDescriptor)
deriving DecidableEq, Repr

/-- Modelled from the spec: Universe::attachDescriptor (section 4.6) —
allocate a fresh handle, install the mapping, return the handle. -/
def Universe.attachDescriptor (u : Universe) (d : AnyDescriptor) :
    Universe × Nat :=
  ({ nextHandle := u.nextHandle + 1, table := (u.nextHandle, d) :: u.table },
   u.nextHandle)

/-- Look a handle up in a universe's table. -/
def Universe.getDescriptor (u : Universe) (h : Nat) : Option AnyDescriptor :=
  (u.table.find? (fun e => e.1 == h)).map Prod.snd

/-- A fresh, empty universe. -/
def Universe.new : Universe := { nextHandle := 0, table := [] }

/-- The user-visible async events produced by the completion policies of
stream.cpp: kEventAccept and kEventRecvDescriptor events carry the
numeric handle freshly attached into the recipient's universe. -/
inductive AsyncEvent where
  | acceptEvent (info : Nat) (error : Error) (handle : Nat)
  | recvDescriptorEvent (info : Nat) (error : Error) (handle : Nat)
deriving DecidableEq, Repr

/-- Embeds AcceptPolicy::makeEvent (stream.cpp lines 6-21): attach the
lane descriptor into the acceptor's universe under its lock and build a
kEventAccept event carrying the resulting handle.  The weak-pointer grab
is assumed to succeed (the source asserts it). -/
def AcceptPolicy.makeEvent (info : Nat) (error : Error) (u : Universe)
    (lane : LaneDescriptor) : Universe × AsyncEvent :=
  let r := u.attachDescriptor (.laneDescriptor lane)
  (r.1, .acceptEvent info error r.2)

/-- Embeds PullDescriptorPolicy::makeEvent (stream.cpp lines 23-38):
attach the pulled descriptor into the puller's universe under its lock
and build a kEventRecvDescriptor event carrying the resulting handle.
The weak-pointer grab is assumed to succeed (the source asserts it). -/
def PullDescriptorPolicy.makeEvent (info : Nat) (error : Error)
    (u : Universe) (d : AnyDescriptor) : Universe × AsyncEvent :=
  let r := u.attachDescriptor d
  (r.1, .recvDescriptorEvent info error r.2)

/-- A stream state with the given process queues, both lanes alive with
one peer each, and an empty conversation FIFO. -/
def mkState (q0 q1 : List StreamControl) : Stream :=
  { Stream.new with queue0 := q0, queue1 := q1 }

@[simp]
theorem Stream.queueOf_zero (st : Stream) : st.queueOf 0 = st.queue0 := rfl

@[simp]
theorem Stream.queueOf_one (st : Stream) : st.queueOf 1 = st.queue1 := rfl

@[simp]
theorem Stream.brokenOf_zero (st : Stream) : st.brokenOf 0 = st.broken0 := rfl

@[simp]
theorem Stream.brokenOf_one (st : Stream) : st.brokenOf 1 = st.broken1 := rfl

@[simp]
theorem Stream.peersOf_zero (st : Stream) : st.peersOf 0 = st.peers0 := rfl

@[simp]
theorem Stream.peersOf_one (st : Stream) : st.peersOf 1 = st.peers1 := rfl

@[simp]
theorem Stream.setQueue_zero (st : Stream) (l : List StreamControl) :
    st.setQueue 0 l = { st with queue0 := l } := rfl

@[simp]
theorem Stream.setQueue_one (st : Stream) (l : List StreamControl) :
    st.setQueue 1 l = { st with queue1 := l } := rfl

@[simp]
theorem Stream.setPeers_zero (st : Stream) (n : Nat) :
    st.setPeers 0 n = { st with peers0 := n } := rfl

@[simp]
theorem Stream.setPeers_one (st : Stream) (n : Nat) :
    st.setPeers 1 n = { st with peers1 := n } := rfl

@[simp]
theorem Stream.setBroken_zero (st : Stream) (b : Bool) :
    st.setBroken 0 b = { st with broken0 := b } := rfl

@[simp]
theorem Stream.setBroken_one (st : Stream) (b : Bool) :
    st.setBroken 1 b = { st with broken1 := b } := rfl

/-- C1: for every Send/Recv match completed by Stream::submit, in either
direction (SendBuffer arriving against a parked RecvBuffer, or RecvBuffer
arriving against a parked SendBuffer), the bytes written into the
receiver's buffer equal the sender's buffer, the sender completes with
kErrSuccess and no payload, and the receiver completes with kErrSuccess
and a byte count equal to the sender's buffer length. -/
theorem submit_send_recv_delivers_bytes
    (st : Stream) (p : Fin 2) (sInfo rInfo cap : Nat) (buf : List Nat)
    (rest : List StreamControl)
    (hb : st.brokenOf p = false) (hcap : buf.length ≤ cap) :
    (st.queueOf (1 - p) = .recvToBuffer rInfo cap :: rest →
      st.submit p (.sendFromBuffer sInfo buf) =
        .ok (st.setQueue (1 - p) rest)
          [ .send sInfo .kErrSuccess,
            .recv rInfo .kErrSuccess buf.length buf ] none)
    ∧ (st.queueOf (1 - p) = .sendFromBuffer sInfo buf :: rest →
      st.submit p (.recvToBuffer rInfo cap) =
        .ok (st.setQueue (1 - p) rest)
          [ .send sInfo .kErrSuccess,
            .recv rInfo .kErrSuccess buf.length buf ] none) := by
  constructor <;> intro hq <;> fin_cases p <;>
    simp_all [Stream.submit, dispatch, transferSendRecv, copyTo,
      StreamControl.isOffer, StreamControl.isAccept]

/-- Witness for C1: a two-byte send matched against a parked 16-byte
receive delivers exactly those two bytes. -/
theorem submit_send_recv_delivers_bytes_witness :
    (mkState [] [.recvToBuffer 7 16]).submit 0 (.sendFromBuffer 3 [104, 105]) =
      .ok ((mkState [] [.recvToBuffer 7 16]).setQueue (1 - 0) [])
        [ .send 3 .kErrSuccess, .recv 7 .kErrSuccess 2 [104, 105] ] none :=
  (submit_send_recv_delivers_bytes (mkState [] [.recvToBuffer 7 16]) 0
    3 7 16 [104, 105] [] rfl (by decide)).1 rfl

/-- C2: for every Offer/Accept match (an Offer meeting a parked Accept,
or an Accept meeting a parked Offer), the two LaneHandles handed out
refer to the same child stream c (the head of the conversation FIFO) and
carry the two distinct lane indices: the offer item completes with
kErrSuccess and no lane, the accept item completes with kErrSuccess and
the lane handle of the accept submitter's own side, and submit returns a
LaneDescriptor for the caller's side (c, p) of that same child stream. -/
theorem submit_offer_accept_match
    (st : Stream) (p : Fin 2) (infoO infoA univA : Nat)
    (c : StreamObj) (cs : List StreamObj) (rest : List StreamControl)
    (hb : st.brokenOf p = false)
    (hc : st.conversationQueue = c :: cs) :
    (st.queueOf (1 - p) = .accept infoA univA :: rest →
      st.submit p (.offer infoO) =
        .ok ((st.setQueue (1 - p) rest).setConversations cs)
          [ .offer infoO .kErrSuccess,
            .accept infoA .kErrSuccess univA (some ⟨c.id, 1 - p⟩) ]
          (some ⟨c.id, p⟩))
    ∧ (st.queueOf (1 - p) = .offer infoO :: rest →
      st.submit p (.accept infoA univA) =
        .ok ((st.setQueue (1 - p) rest).setConversations cs)
          [ .offer infoO .kErrSuccess,
            .accept infoA .kErrSuccess univA (some ⟨c.id, p⟩) ]
          (some ⟨c.id, p⟩))
    ∧ (⟨c.id, p⟩ : LaneHandle).stream = (⟨c.id, 1 - p⟩ : LaneHandle).stream
    ∧ p ≠ 1 - p := by
  refine ⟨?_, ?_, rfl, ?_⟩
  · intro hq
    fin_cases p <;>
      simp_all [Stream.submit, dispatch, transferOfferAccept,
        Stream.setConversations, StreamControl.isOffer, StreamControl.isAccept]
  · intro hq
    fin_cases p <;>
      simp_all [Stream.submit, dispatch, transferOfferAccept,
        Stream.setConversations, StreamControl.isOffer, StreamControl.isAccept]
  · fin_cases p <;> decide

/-- Witness for C2: an Offer submitted on lane 0 against a parked Accept
on lane 1, with child stream 4 at the head of the conversation FIFO. -/
theorem submit_offer_accept_match_witness :
    { mkState [] [.accept 5 9] with conversationQueue := [⟨4, 3, 2, 2⟩] }.submit
        0 (.offer 8) =
      .ok (({ mkState [] [.accept 5 9] with
          conversationQueue := [⟨4, 3, 2, 2⟩] }.setQueue (1 - 0) []).setConversations [])
        [ .offer 8 .kErrSuccess,
          .accept 5 .kErrSuccess 9 (some ⟨4, 1 - 0⟩) ]
        (some ⟨4, 0⟩) :=
  (submit_offer_accept_match
    { mkState [] [.accept 5 9] with conversationQueue := [⟨4, 3, 2, 2⟩] }
    0 8 5 9 ⟨4, 3, 2, 2⟩ [] [] rfl rfl).1 rfl

/-- C3: evaluation at the failing input.  The claim says every Push/Pull
match completes the pusher with kErrSuccess and delivers to the puller a
handle freshly attached in its universe resolving to the pushed
descriptor.  The dispatch of Stream::submit handles Push/Pull only with
the push as the submitted item (stream.cpp lines 189-193), so a
PullDescriptor submitted against a parked PushDescriptor — the very
order of end-to-end scenario 4 of the specification — reaches the
"Operations do not match" trap and no completion fires (first conjunct).
In the one implemented orientation the claimed behavior does hold: the
pusher completes with kErrSuccess, and delivering the pull completion
through PullDescriptorPolicy::makeEvent attaches the pushed descriptor
into the puller's universe at a fresh handle that resolves to that very
descriptor (remaining conjuncts). -/
theorem submit_pull_against_parked_push_traps :
    (mkState [.pushDescriptor 1 (.memory 42)] []).submit 1 (.pullDescriptor 2 6) =
      .trap "Operations do not match"
    ∧ (mkState [] [.pullDescriptor 2 6]).submit 0 (.pushDescriptor 1 (.memory 42)) =
      .ok { mkState [] [.pullDescriptor 2 6] with queue1 := [] }
        [ .push 1 .kErrSuccess, .pull 2 .kErrSuccess 6 (.memory 42) ] none
    ∧ PullDescriptorPolicy.makeEvent 2 .kErrSuccess Universe.new (.memory 42) =
      (⟨1, [(0, .memory 42)]⟩, .recvDescriptorEvent 2 .kErrSuccess 0)
    ∧ Universe.getDescriptor ⟨1, [(0, .memory 42)]⟩ 0 = some (.memory 42) :=
  ⟨rfl, rfl, rfl, rfl⟩

/-- C9: evaluation at the failing input.  The claim says the matcher's
dispatch is exhaustive over the three legal kind combinations in both
orientations, with the trap unreachable for matched pairs.  The five
implemented branches (Offer against parked Accept, Accept against parked
Offer, Send against parked Recv, Recv against parked Send, Push against
parked Pull) do complete without trapping, and a genuinely mismatched
pair traps — but the matched pair PullDescriptor against parked
PushDescriptor also reaches the "Operations do not match" trap, because
stream.cpp lines 189-193 dispatch Push/Pull in only one orientation. -/
theorem dispatch_pull_push_orientation_missing :
    ((mkState [.pushDescriptor 3 (.thread 8)] []).submit 1 (.pullDescriptor 4 9) =
      .trap "Operations do not match")
    ∧ dispatch (mkState [] []) 1 0 (.pullDescriptor 4 9) (.pushDescriptor 3 (.thread 8)) none =
      .trap "Operations do not match"
    ∧ dispatch (mkState [] []) 0 1 (.offer 1) (.accept 2 5) (some ⟨4, 3, 2, 2⟩) =
      .ok (mkState [] []) [ .offer 1 .kErrSuccess, .accept 2 .kErrSuccess 5 (some ⟨4, 1⟩) ]
        (some ⟨4, 0⟩)
    ∧ dispatch (mkState [] []) 0 1 (.accept 2 5) (.offer 1) (some ⟨4, 3, 2, 2⟩) =
      .ok (mkState [] []) [ .offer 1 .kErrSuccess, .accept 2 .kErrSuccess 5 (some ⟨4, 0⟩) ]
        (some ⟨4, 0⟩)
    ∧ dispatch (mkState [] []) 0 1 (.sendFromBuffer 1 [9]) (.recvToBuffer 2 4) none =
      .ok (mkState [] []) [ .send 1 .kErrSuccess, .recv 2 .kErrSuccess 1 [9] ] none
    ∧ dispatch (mkState [] []) 0 1 (.recvToBuffer 2 4) (.sendFromBuffer 1 [9]) none =
      .ok (mkState [] []) [ .send 1 .kErrSuccess, .recv 2 .kErrSuccess 1 [9] ] none
    ∧ dispatch (mkState [] []) 0 1 (.pushDescriptor 3 (.thread 8)) (.pullDescriptor 4 9) none =
      .ok (mkState [] []) [ .push 3 .kErrSuccess, .pull 4 .kErrSuccess 9 (.thread 8) ] none
    ∧ dispatch (mkState [] []) 0 1 (.sendFromBuffer 1 [9]) (.accept 2 5) none =
      .trap "Operations do not match" :=
  ⟨rfl, rfl, rfl, rfl, rfl, rfl, rfl, rfl⟩

@[simp]
theorem Stream.conversationQueue_setQueue (st : Stream) (p : Fin 2)
    (l : List StreamControl) :
    (st.setQueue p l).conversationQueue = st.conversationQueue := by
  unfold Stream.setQueue; split <;> rfl

/-- Every ok outcome of the post-lock dispatch carries only kErrSuccess
completions, and its result descriptor is non-empty only when the
submitted item u is an Offer or Accept. -/
theorem dispatch_ok_inv (st st2 : Stream) (p q : Fin 2) (u v : StreamControl)
    (c : Option StreamObj) (evs : List Completion) (d : LaneDescriptor)
    (h : dispatch st p q u v c = .ok st2 evs d) :
    (∀ e ∈ evs, e.error = .kErrSuccess) ∧
    (d ≠ none → (u.isOffer = true ∨ u.isAccept = true)) := by
  unfold dispatch at h
  split at h
  all_goals try (split at h)
  all_goals try (cases h)
  all_goals try (rename_i heq
                 unfold transferSendRecv at heq
                 split at heq <;> cases heq)
  all_goals simp [transferOfferAccept, transferPushPull, Completion.error,
    StreamControl.isOffer, StreamControl.isAccept, copyTo]

/-- Every ok outcome of Stream::submit carries only kErrSuccess
completions, and its result descriptor is non-empty only when the
submitted item u is an Offer or Accept. -/
theorem submit_ok_inv (st st2 : Stream) (p : Fin 2) (u : StreamControl)
    (evs : List Completion) (d : LaneDescriptor)
    (h : st.submit p u = .ok st2 evs d) :
    (∀ e ∈ evs, e.error = .kErrSuccess) ∧
    (d ≠ none → (u.isOffer = true ∨ u.isAccept = true)) := by
  by_cases hbp : st.brokenOf p = true
  · simp [Stream.submit, hbp] at h
  · rw [Bool.not_eq_true] at hbp
    rcases hq : st.queueOf (1 - p) with - | ⟨v, rest⟩
    · by_cases hbq : st.brokenOf (1 - p) = true
      · simp [Stream.submit, hbp, hq, hbq] at h
      · rw [Bool.not_eq_true] at hbq
        by_cases hu : (u.isOffer || u.isAccept) = true
        · simp [Stream.submit, hbp, hq, hbq, hu] at h
          obtain ⟨-, rfl, rfl⟩ := h
          exact ⟨by simp, fun _ => by simpa [Bool.or_eq_true] using hu⟩
        · simp only [Bool.or_eq_true, Bool.not_eq_true] at hu
          push_neg at hu
          simp [Stream.submit, hbp, hq, hbq,
            Bool.eq_false_iff.mpr hu.1, Bool.eq_false_iff.mpr hu.2] at h
          obtain ⟨-, rfl, rfl⟩ := h
          exact ⟨by simp, fun hd => absurd rfl hd⟩
    · by_cases hvc : (v.isOffer || v.isAccept) = true
      · rcases hc : st.conversationQueue with - | ⟨c, cs⟩
        · simp [Stream.submit, hbp, hq, hvc, hc] at h
        · simp [Stream.submit, hbp, hq, hvc, hc] at h
          exact dispatch_ok_inv _ _ _ _ _ _ _ _ _ h
      · simp only [Bool.or_eq_true, Bool.not_eq_true] at hvc
        push_neg at hvc
        simp [Stream.submit, hbp, hq,
          Bool.eq_false_iff.mpr hvc.1, Bool.eq_false_iff.mpr hvc.2] at h
        exact dispatch_ok_inv _ _ _ _ _ _ _ _ _ h

/-- C4: matching is strict FIFO per lane.  For every submit on lane p
with queue[q] non-empty — whatever the kinds of the submitted item u and
of the head — the matcher pops exactly the head (oldest) item v of
queue[q], leaving its tail, and pairs u against v in the post-lock
dispatch, additionally popping the head of the conversation FIFO when v
is an Offer or Accept (first conjunct); every item that parks — again of
any kind — is appended at the back of queue[p], with no completion fired
(second conjunct); consequently two Sends submitted on lane 0 are
delivered to two subsequent Recvs on lane 1 in submission order (third
conjunct). -/
theorem submit_fifo_order :
    (∀ (st : Stream) (p : Fin 2) (u v : StreamControl)
        (rest : List StreamControl),
      st.brokenOf p = false →
      st.queueOf (1 - p) = v :: rest →
      st.submit p u =
        if v.isOffer || v.isAccept then
          match st.conversationQueue with
          | [] => .trap "conversation queue empty"
          | c :: cs =>
            dispatch ((st.setQueue (1 - p) rest).setConversations cs)
              p (1 - p) u v (some c)
        else dispatch (st.setQueue (1 - p) rest) p (1 - p) u v none)
    ∧ (∀ (st : Stream) (p : Fin 2) (u : StreamControl),
      st.brokenOf p = false → st.brokenOf (1 - p) = false →
      st.queueOf (1 - p) = [] →
      ∃ (st2 : Stream) (d : LaneDescriptor),
        st.submit p u = .ok st2 [] d ∧
        st2.queueOf p = st.queueOf p ++ [u])
    ∧ (∀ (i1 i2 j1 j2 c1 c2 : Nat) (a b : List Nat),
      a.length ≤ c1 → b.length ≤ c2 →
      (mkState [] []).submit 0 (.sendFromBuffer i1 a) =
        .ok (mkState [.sendFromBuffer i1 a] []) [] none
      ∧ (mkState [.sendFromBuffer i1 a] []).submit 0 (.sendFromBuffer i2 b) =
        .ok (mkState [.sendFromBuffer i1 a, .sendFromBuffer i2 b] []) [] none
      ∧ (mkState [.sendFromBuffer i1 a, .sendFromBuffer i2 b] []).submit 1
          (.recvToBuffer j1 c1) =
        .ok (mkState [.sendFromBuffer i2 b] [])
          [ .send i1 .kErrSuccess, .recv j1 .kErrSuccess a.length a ] none
      ∧ (mkState [.sendFromBuffer i2 b] []).submit 1 (.recvToBuffer j2 c2) =
        .ok (mkState [] [])
          [ .send i2 .kErrSuccess, .recv j2 .kErrSuccess b.length b ] none) := by
  refine ⟨?_, ?_, ?_⟩
  · intro st p u v rest hb hq
    fin_cases p <;> simp_all [Stream.submit]
  · intro st p u hb hbq hq
    fin_cases p <;> cases u <;>
      simp_all [Stream.submit, StreamControl.isOffer, StreamControl.isAccept]
  · intro i1 i2 j1 j2 c1 c2 a b h1 h2
    refine ⟨?_, ?_, ?_, ?_⟩ <;>
      simp [Stream.submit, dispatch, transferSendRecv, copyTo, mkState,
        Stream.new, StreamControl.isOffer, StreamControl.isAccept, h1, h2]

/-- Witness for C4: the concrete FIFO scenario with one-byte buffers. -/
theorem submit_fifo_order_witness :
    (mkState [] []).submit 0 (.sendFromBuffer 0 [65]) =
      .ok (mkState [.sendFromBuffer 0 [65]] []) [] none
    ∧ (mkState [.sendFromBuffer 0 [65]] []).submit 0 (.sendFromBuffer 1 [66]) =
      .ok (mkState [.sendFromBuffer 0 [65], .sendFromBuffer 1 [66]] []) [] none
    ∧ (mkState [.sendFromBuffer 0 [65], .sendFromBuffer 1 [66]] []).submit 1
        (.recvToBuffer 2 1) =
      .ok (mkState [.sendFromBuffer 1 [66]] [])
        [ .send 0 .kErrSuccess, .recv 2 .kErrSuccess 1 [65] ] none
    ∧ (mkState [.sendFromBuffer 1 [66]] []).submit 1 (.recvToBuffer 3 1) =
      .ok (mkState [] [])
        [ .send 1 .kErrSuccess, .recv 3 .kErrSuccess 1 [66] ] none := by
  have h := submit_fifo_order.2.2 0 1 2 3 1 1 [65] [66] (by decide) (by decide)
  simpa using h

/-- C5: an Offer or Accept submitted on lane p against an empty queue[q]
with lane q not broken parks the item at the back of queue[p], constructs
a fresh child stream with refcount exactly 3 and both peer counts
exactly 2, appends it to the conversation FIFO, and returns a non-empty
LaneDescriptor for lane p of that child (first conjunct); for every other
item kind, any normally returning submit yields an empty LaneDescriptor,
whether the item matched or parked (second conjunct). -/
theorem submit_result_descriptor :
    (∀ (st : Stream) (p : Fin 2) (u : StreamControl),
      st.brokenOf p = false → st.brokenOf (1 - p) = false →
      st.queueOf (1 - p) = [] →
      (u.isOffer = true ∨ u.isAccept = true) →
      st.submit p u =
        .ok { st.setQueue p (st.queueOf p ++ [u]) with
              conversationQueue := st.conversationQueue ++ [⟨st.nextId, 3, 2, 2⟩],
              nextId := st.nextId + 1 }
          [] (some ⟨st.nextId, p⟩))
    ∧ (∀ (st st2 : Stream) (p : Fin 2) (u : StreamControl)
        (evs : List Completion) (d : LaneDescriptor),
      u.isOffer = false → u.isAccept = false →
      st.submit p u = .ok st2 evs d → d = none) := by
  constructor
  · intro st p u hb hbq hq hu
    fin_cases p <;> cases u <;>
      simp_all [Stream.submit, StreamControl.isOffer, StreamControl.isAccept]
  · intro st st2 p u evs d hu1 hu2 h
    by_contra hd
    rcases (submit_ok_inv st st2 p u evs d h).2 hd with h' | h' <;> simp_all

/-- Witness for C5: an Offer parked on lane 0 of a fresh stream yields
the child stream with refcount 3 and peer counts 2/2 and a non-empty
descriptor for lane 0 of that child; a Send that parks yields an empty
descriptor. -/
theorem submit_result_descriptor_witness :
    (mkState [] []).submit 0 (.offer 6) =
      .ok { (mkState [] []).setQueue 0 ((mkState [] []).queueOf 0 ++ [.offer 6]) with
            conversationQueue := [⟨0, 3, 2, 2⟩], nextId := 1 }
        [] (some ⟨0, 0⟩)
    ∧ ((mkState [] []).submit 0 (.sendFromBuffer 1 [2]) =
        .ok (mkState [.sendFromBuffer 1 [2]] []) [] none → (none : LaneDescriptor) = none) := by
  constructor
  · exact (submit_result_descriptor.1 (mkState [] []) 0 (.offer 6) rfl rfl rfl
      (Or.inl rfl))
  · intro h
    exact submit_result_descriptor.2 (mkState [] []) (mkState [.sendFromBuffer 1 [2]] [])
      0 (.sendFromBuffer 1 [2]) [] none rfl rfl h

/-- C6: evaluation at the failing input.  The claim says a submit on
lane p with queue[q] empty and lane q broken completes the item with
kErrClosedRemotely.  In the source, dropping the sole LaneHandle on
lane 1 of a fresh stream marks the lane broken (first conjunct), and a
subsequent submit on lane 0 then reaches
assert(!"Handle remotely broken lanes") (stream.cpp line 130) — a trap,
not a kErrClosedRemotely completion (second conjunct). -/
theorem submit_on_remotely_broken_lane_asserts :
    Stream.new.decrementPeers 1 =
      .ok { Stream.new with peers1 := 0, broken1 := true } [] true
    ∧ { Stream.new with peers1 := 0, broken1 := true }.submit 0
        (.recvToBuffer 5 16) = .trap "Handle remotely broken lanes" :=
  ⟨rfl, rfl⟩

/-- Counterexample for C7: the claim says a SendBuffer matched against a
smaller RecvBuffer surfaces kErrBufferTooSmall to the receiver and
kErrSuccess to the sender.  At this concrete input — a two-byte send
against a parked one-byte receive — the source instead trips the
assert(from.buffer.size() <= to.accessor.length()) of stream.cpp
line 67: the submit traps and neither side receives any completion. -/
theorem submit_undersized_recv_counterexample :
    (mkState [] [.recvToBuffer 5 1]).submit 0 (.sendFromBuffer 4 [10, 20]) =
      .trap "send size exceeds recv capacity" :=
  rfl

/-- C7 (amended): when a SendBuffer meets a RecvBuffer whose capacity is
smaller than the send length, in either orientation, the mismatch is
checked at match time by an assertion and the submit traps; no
completion — in particular no kErrBufferTooSmall completion and no byte
count — is delivered to either side. -/
theorem submit_undersized_recv_asserts
    (st : Stream) (p : Fin 2) (sInfo rInfo cap : Nat) (buf : List Nat)
    (rest : List StreamControl)
    (hb : st.brokenOf p = false) (hcap : cap < buf.length) :
    (st.queueOf (1 - p) = .recvToBuffer rInfo cap :: rest →
      st.submit p (.sendFromBuffer sInfo buf) =
        .trap "send size exceeds recv capacity")
    ∧ (st.queueOf (1 - p) = .sendFromBuffer sInfo buf :: rest →
      st.submit p (.recvToBuffer rInfo cap) =
        .trap "send size exceeds recv capacity") := by
  constructor <;> intro hq <;> fin_cases p <;>
    (simp_all [Stream.submit, dispatch,
       StreamControl.isOffer, StreamControl.isAccept];
     have hle : ¬ buf.length ≤ cap := by omega;
     simp [transferSendRecv, hle])

/-- Witness for C7 (amended): a three-byte send against a parked
two-byte receive traps. -/
theorem submit_undersized_recv_asserts_witness :
    (mkState [] [.recvToBuffer 8 2]).submit 0 (.sendFromBuffer 6 [1, 2, 3]) =
      .trap "send size exceeds recv capacity" :=
  (submit_undersized_recv_asserts (mkState [] [.recvToBuffer 8 2]) 0
    6 8 2 [1, 2, 3] [] rfl (by decide)).1 rfl

/-- Counterexample for C8: the claim says that when the last LaneHandle
of a lane drops, every item parked on that lane's queue is drained and
completed with kErrClosedLocally.  At this concrete input — a stream
whose lane 0 holds one parked RecvBuffer and one peer — decrementPeers
on lane 0 fires no completion at all and leaves the item parked: the
source (stream.cpp lines 84-98) only logs and sets the laneBroken
flag. -/
theorem decrementPeers_does_not_drain_counterexample :
    (mkState [.recvToBuffer 9 4] []).decrementPeers 0 =
      .ok { mkState [.recvToBuffer 9 4] [] with peers0 := 0, broken0 := true }
        [] true
    ∧ { mkState [.recvToBuffer 9 4] [] with
        peers0 := 0, broken0 := true }.queue0 = [.recvToBuffer 9 4] :=
  ⟨rfl, rfl⟩

/-- C8 (amended): when the last LaneHandle of a lane drops (peer count
1 → 0), decrementPeers marks the lane broken — asserting it was not
already broken — and reports the last drop so that ~LaneHandle releases
that lane's stream reference; it fires no completion and drains neither
queue: both process queues are unchanged and any parked items stay
parked, their completions lost. -/
theorem decrementPeers_marks_broken_only
    (st : Stream) (lane : Fin 2)
    (h1 : st.peersOf lane = 1) (h2 : st.brokenOf lane = false) :
    st.decrementPeers lane =
      .ok ((st.setPeers lane 0).setBroken lane true) [] true
    ∧ ((st.setPeers lane 0).setBroken lane true).queue0 = st.queue0
    ∧ ((st.setPeers lane 0).setBroken lane true).queue1 = st.queue1
    ∧ ((st.setPeers lane 0).setBroken lane true).conversationQueue =
        st.conversationQueue := by
  fin_cases lane <;>
    exact ⟨by simp_all [Stream.decrementPeers], rfl, rfl, rfl⟩

/-- Witness for C8 (amended): dropping the last peer of lane 0 of a
stream with a parked item marks lane 0 broken and touches no queue. -/
theorem decrementPeers_marks_broken_only_witness :
    (mkState [.sendFromBuffer 2 [7]] []).decrementPeers 0 =
      .ok (((mkState [.sendFromBuffer 2 [7]] []).setPeers 0 0).setBroken 0 true)
        [] true
    ∧ (((mkState [.sendFromBuffer 2 [7]] []).setPeers 0 0).setBroken 0
        true).queue0 = (mkState [.sendFromBuffer 2 [7]] []).queue0
    ∧ (((mkState [.sendFromBuffer 2 [7]] []).setPeers 0 0).setBroken 0
        true).queue1 = (mkState [.sendFromBuffer 2 [7]] []).queue1
    ∧ (((mkState [.sendFromBuffer 2 [7]] []).setPeers 0 0).setBroken 0
        true).conversationQueue =
        (mkState [.sendFromBuffer 2 [7]] []).conversationQueue :=
  decrementPeers_marks_broken_only (mkState [.sendFromBuffer 2 [7]] []) 0
    rfl rfl

/-- C10: every completion fired by a normally returning run of
Stream::submit carries kErrSuccess (first conjunct); the abnormal
conditions do not produce error completions but assertion failures:
submitting on a locally broken lane traps (second conjunct), and
submitting on a lane whose peer lane is broken with an empty queue traps
(third conjunct); an undersized receive buffer and a kind mismatch also
trap, as proved for the other claims. -/
theorem submit_normal_runs_only_success :
    (∀ (st st2 : Stream) (p : Fin 2) (u : StreamControl)
        (evs : List Completion) (d : LaneDescriptor) (e : Completion),
      st.submit p u = .ok st2 evs d → e ∈ evs → e.error = .kErrSuccess)
    ∧ (∀ (st : Stream) (p : Fin 2) (u : StreamControl),
      st.brokenOf p = true →
      st.submit p u = .trap "submit on locally broken lane")
    ∧ (∀ (st : Stream) (p : Fin 2) (u : StreamControl),
      st.brokenOf p = false → st.queueOf (1 - p) = [] →
      st.brokenOf (1 - p) = true →
      st.submit p u = .trap "Handle remotely broken lanes") := by
  refine ⟨?_, ?_, ?_⟩
  · intro st st2 p u evs d e h he
    exact (submit_ok_inv st st2 p u evs d h).1 e he
  · intro st p u hb
    simp [Stream.submit, hb]
  · intro st p u hb hq hbq
    fin_cases p <;> simp_all [Stream.submit]

/-- Witness for C10: the receive completion of a concrete Send/Recv
match carries kErrSuccess, and a submit on the locally broken lane 0
traps. -/
theorem submit_normal_runs_only_success_witness :
    (Completion.recv 7 .kErrSuccess 2 [104, 105]).error = .kErrSuccess
    ∧ { mkState [] [] with broken0 := true }.submit 0 (.offer 1) =
        .trap "submit on locally broken lane" :=
  ⟨submit_normal_runs_only_success.1 (mkState [] [.recvToBuffer 7 16])
      ((mkState [] [.recvToBuffer 7 16]).setQueue (1 - 0) []) 0
      (.sendFromBuffer 3 [104, 105])
      [ .send 3 .kErrSuccess, .recv 7 .kErrSuccess 2 [104, 105] ] none
      (.recv 7 .kErrSuccess 2 [104, 105]) (by decide) (by decide),
   submit_normal_runs_only_success.2.1 { mkState [] [] with broken0 := true }
      0 (.offer 1) rfl⟩

end Thor
